import Mathlib

/-!
Verification of the smart-farmer dashboard core (src/server.js and
src/public/script.js).

The embedded core consists of the pure computations of the repository:
the crop-health scorer `getCropHealth` and its growth-stage helper
`getGrowthStage`, the yield predictor `predictYield`, the subscription
feature-access lookup `hasAccess` over the static `planFeatures` table,
and the bounded historical-series buffer `updateHistoricalData`.

Numbers are modelled as rationals (the JavaScript arithmetic appearing in
these functions is exact decimal arithmetic at the scale used, so the
rational idealization agrees with the double-precision evaluation on all
values considered here), and `Math.round` as `jsRound`, rounding half
toward positive infinity as JavaScript does.
-/

/-- JavaScript Math.round: round to nearest, halves toward positive infinity. -/
def jsRound (q : ℚ) : ℤ := ⌊q + 1/2⌋

/-- Weather reading schema produced by getCurrentWeather in src/server.js. -/
structure WeatherReading where
  temperature : ℚ
  humidity : ℚ
  pressure : ℚ
  windSpeed : ℚ
  windDirection : ℚ
  description : String
  icon : String
  visibility : ℚ
  uvIndex : ℚ
  timestamp : String
deriving DecidableEq

/-- Soil reading schema produced by getSoilData in src/server.js. -/
structure SoilReading where
  moisture : ℚ
  temperature : ℚ
  ph : ℚ
  nitrogen : ℚ
  phosphorus : ℚ
  potassium : ℚ
  conductivity : ℚ
  timestamp : String
deriving DecidableEq

/-- One entry of the recommendations array built by getCropHealth.
The free-text message and action strings are represented by the
recommendation kind, its priority, and the one computed quantity those
strings embed: the irrigation action's water amount
Math.round((35 - moisture) * 15) in L/m² (`amount` is none for the kinds
whose action text contains no computed number). -/
structure Recommendation where
  type : String
  priority : String
  amount : Option ℤ
deriving DecidableEq

/-- Per-factor status entry of the factors object built by getCropHealth. -/
structure FactorStatus where
  status : String
  value : ℚ
deriving DecidableEq

/-- Growth-stage record returned by getGrowthStage in src/server.js. -/
structure GrowthStage where
  stage : String
  progress : ℚ
  optimal : Bool
deriving DecidableEq

/-- getGrowthStage from src/server.js, lines 304-310. -/
def getGrowthStage (days : ℤ) : GrowthStage :=
  if days < 15 then ⟨"Germination", (days : ℚ) / 15 * 100, decide (7 ≤ days)⟩
  else if days < 45 then ⟨"Vegetative", ((days : ℚ) - 15) / 30 * 100, decide (20 ≤ days)⟩
  else if days < 75 then ⟨"Reproductive", ((days : ℚ) - 45) / 30 * 100, decide (50 ≤ days)⟩
  else if days < 120 then ⟨"Maturation", ((days : ℚ) - 75) / 45 * 100, decide (90 ≤ days)⟩
  else ⟨"Ready for Harvest", 100, true⟩

/-- Temperature branch of getCropHealth (src/server.js lines 224-239):
score delta, factor entry, and the recommendations it pushes. -/
def temperatureStep (t : ℚ) : ℚ × FactorStatus × List Recommendation :=
  if 15 ≤ t ∧ t ≤ 25 then (15, ⟨"optimal", t⟩, [])
  else if t < 10 ∨ 35 < t then (-20, ⟨"critical", t⟩, [⟨"temperature", "HIGH", none⟩])
  else (5, ⟨"moderate", t⟩, [])

/-- Soil-moisture branch of getCropHealth (src/server.js lines 241-264). -/
def moistureStep (m : ℚ) : ℚ × FactorStatus × List Recommendation :=
  if 30 ≤ m ∧ m ≤ 60 then (15, ⟨"optimal", m⟩, [])
  else if m < 20 then
    (-25, ⟨"critical", m⟩, [⟨"irrigation", "HIGH", some (jsRound ((35 - m) * 15))⟩])
  else if 75 < m then (-15, ⟨"excessive", m⟩, [⟨"drainage", "MEDIUM", none⟩])
  else (0, ⟨"moderate", m⟩, [])

/-- Soil-pH branch of getCropHealth (src/server.js lines 266-278). -/
def phStep (p : ℚ) : ℚ × FactorStatus × List Recommendation :=
  if 6 ≤ p ∧ p ≤ 7.5 then (10, ⟨"optimal", p⟩, [])
  else (-10, ⟨"suboptimal", p⟩, [⟨"soil", "MEDIUM", none⟩])

/-- Nitrogen branch of getCropHealth (src/server.js lines 280-288);
the code records no factor entry for nitrogen. -/
def nitrogenStep (n : ℚ) : ℚ × List Recommendation :=
  if n < 40 then (-15, [⟨"fertilizer", "HIGH", none⟩]) else (0, [])

/-- Additive point total of getCropHealth: base 70 plus the four branch
deltas accumulated into healthScore by src/server.js lines 220-288. -/
def healthSum (w : WeatherReading) (s : SoilReading) : ℚ :=
  70 + (temperatureStep w.temperature).1 + (moistureStep s.moisture).1
    + (phStep s.ph).1 + (nitrogenStep s.nitrogen).1

/-- Result record of getCropHealth (src/server.js lines 293-301).
The fields expectedHarvest and timestamp are derived from the wall clock,
outside the embedded pure core. -/
structure CropHealthResult where
  score : ℤ
  temperatureFactor : FactorStatus
  soilMoistureFactor : FactorStatus
  phFactor : FactorStatus
  growthStageFactor : GrowthStage
  recommendations : List Recommendation
  growthStage : String
  daysFromPlanting : ℤ
deriving DecidableEq

/-- getCropHealth from src/server.js, lines 215-302, as a function of the
weather reading, the soil reading and the days since planting. The code
accumulates healthScore from 70 through the four branches and finally
returns Math.max(0, Math.min(100, Math.round(healthScore))); the
recommendations are pushed in branch order. -/
def getCropHealth (w : WeatherReading) (s : SoilReading) (daysSincePlanting : ℤ) :
    CropHealthResult :=
  { score := max 0 (min 100 (jsRound (healthSum w s)))
    temperatureFactor := (temperatureStep w.temperature).2.1
    soilMoistureFactor := (moistureStep s.moisture).2.1
    phFactor := (phStep s.ph).2.1
    growthStageFactor := getGrowthStage daysSincePlanting
    recommendations :=
      (temperatureStep w.temperature).2.2 ++ (moistureStep s.moisture).2.2
        ++ (phStep s.ph).2.2 ++ (nitrogenStep s.nitrogen).2
    growthStage := (getGrowthStage daysSincePlanting).stage
    daysFromPlanting := daysSincePlanting }

/-- healthMultiplier of predictYield: cropHealth.score / 100. -/
def healthMultiplier (score : ℤ) : ℚ := (score : ℚ) / 100

/-- weatherMultiplier of predictYield (src/server.js lines 320-322):
starts at 1.0, +0.1 when temperature is in [15,25], -0.2 when below 10 or
above 35. -/
def weatherMultiplier (w : WeatherReading) : ℚ :=
  1 + (if 15 ≤ w.temperature ∧ w.temperature ≤ 25 then (0.1 : ℚ) else 0)
    - (if w.temperature < 10 ∨ 35 < w.temperature then (0.2 : ℚ) else 0)

/-- soilMultiplier of predictYield (src/server.js lines 324-327). -/
def soilMultiplier (s : SoilReading) : ℚ :=
  1 + (if 30 ≤ s.moisture ∧ s.moisture ≤ 60 then (0.1 : ℚ) else 0)
    + (if 6 ≤ s.ph ∧ s.ph ≤ 7.5 then (0.05 : ℚ) else 0)
    + (if 60 < s.nitrogen then (0.1 : ℚ) else 0)

/-- Unrounded predictedYield of src/server.js line 329:
baseYield * healthMultiplier * weatherMultiplier * soilMultiplier. -/
def rawPredictedYield (score : ℤ) (w : WeatherReading) (s : SoilReading)
    (baseYield : ℚ) : ℚ :=
  baseYield * healthMultiplier score * weatherMultiplier w * soilMultiplier s

/-- Result record of predictYield (src/server.js lines 331-341). -/
structure YieldPrediction where
  predicted : ℤ
  perHectare : ℤ
  totalField : ℤ
  confidence : ℤ
  factorHealth : ℤ
  factorWeather : ℤ
  factorSoil : ℤ
deriving DecidableEq

/-- predictYield from src/server.js, lines 312-342, as a function of the
health score, the readings, the base yield (the code fixes baseYield to
4500) and the field size (the code reads cropData.fieldSize, which
loadCropData sets to 2.5). Note that totalField rounds the product of the
UNROUNDED predictedYield with the field size. -/
def predictYield (score : ℤ) (w : WeatherReading) (s : SoilReading)
    (baseYield fieldSize : ℚ) : YieldPrediction :=
  { predicted := jsRound (rawPredictedYield score w s baseYield)
    perHectare := jsRound (rawPredictedYield score w s baseYield)
    totalField := jsRound (rawPredictedYield score w s baseYield * fieldSize)
    confidence := jsRound ((healthMultiplier score * 0.7 + 0.3) * 100)
    factorHealth := jsRound (healthMultiplier score * 100)
    factorWeather := jsRound (weatherMultiplier w * 100)
    factorSoil := jsRound (soilMultiplier s * 100) }

/-- Subscription plans of src/public/script.js (this.currentPlan takes one
of the three values set by the plan-change action). -/
inductive Plan where
  | free
  | pro
  | premium
deriving DecidableEq

/-- Static this.planFeatures table of src/public/script.js, lines 22-26. -/
def planFeatures : Plan → List String
  | .free =>
      ["dashboard-basic", "sensors-basic", "weather", "irrigation-basic",
       "fertilizer-basic"]
  | .pro =>
      ["dashboard-basic", "dashboard-health", "sensors-basic",
       "sensors-advanced", "weather", "irrigation-basic", "fertilizer-basic",
       "crop-health", "export-csv"]
  | .premium =>
      ["dashboard-basic", "dashboard-health", "dashboard-yield",
       "sensors-basic", "sensors-advanced", "weather", "irrigation-basic",
       "fertilizer-basic", "crop-health", "reports", "predictions",
       "export-all", "multi-farm", "api-access"]

/-- hasAccess from src/public/script.js, lines 113-115:
this.planFeatures[this.currentPlan].includes(feature). -/
def hasAccess (plan : Plan) (feature : String) : Bool :=
  (planFeatures plan).contains feature

/-- Historical-series buffer of SmartFarmingDataService (src/server.js
lines 46-51). -/
structure HistoricalData where
  temperature : List ℚ
  humidity : List ℚ
  soilMoisture : List ℚ
  timestamps : List String
deriving DecidableEq

/-- Buffer capacity maxPoints of updateHistoricalData (src/server.js line 395). -/
def maxPoints : ℕ := 50

/-- JavaScript slice(-n) on an array: the last n entries (the whole array
when it is shorter than n). -/
def sliceLast {α : Type} (n : ℕ) (l : List α) : List α := l.drop (l.length - n)

/-- Truncation applied per series by updateHistoricalData (src/server.js
lines 402-406): when the length exceeds maxPoints, keep the last maxPoints
entries. -/
def trimSeries {α : Type} (l : List α) : List α :=
  if maxPoints < l.length then sliceLast maxPoints l else l

/-- updateHistoricalData from src/server.js, lines 394-407: push the new
sample onto each series, then truncate each series to the last maxPoints
entries. The pushed timestamp new Date().toISOString() is passed in as now. -/
def updateHistoricalData (h : HistoricalData) (weather : WeatherReading)
    (soil : SoilReading) (now : String) : HistoricalData :=
  { temperature := trimSeries (h.temperature ++ [weather.temperature])
    humidity := trimSeries (h.humidity ++ [weather.humidity])
    soilMoisture := trimSeries (h.soilMoisture ++ [soil.moisture])
    timestamps := trimSeries (h.timestamps ++ [now]) }

/-- Initial historicalData of the SmartFarmingDataService constructor:
four empty arrays. -/
def emptyHistoricalData : HistoricalData := ⟨[], [], [], []⟩

/-- Iterated append cycles: one updateHistoricalData call per data-fetch
cycle, in order. -/
def runUpdates (h : HistoricalData)
    (steps : List (WeatherReading × SoilReading × String)) : HistoricalData :=
  steps.foldl (fun acc st => updateHistoricalData acc st.1 st.2.1 st.2.2) h

/-- Well-formedness of the buffer: the four series have equal length,
at most maxPoints. -/
def HistoricalData.wellFormed (h : HistoricalData) : Prop :=
  h.temperature.length = h.timestamps.length ∧
  h.humidity.length = h.timestamps.length ∧
  h.soilMoisture.length = h.timestamps.length ∧
  h.timestamps.length ≤ maxPoints

/-! ### Shared helper lemmas and concrete inputs -/

/-- hasAccess answers membership in the plan's static feature table. -/
theorem hasAccess_iff_mem (p : Plan) (f : String) :
    hasAccess p f = true ↔ f ∈ planFeatures p := List.elem_iff

/-- Length of a trimmed series. -/
theorem trimSeries_length {α : Type} (l : List α) :
    (trimSeries l).length = min l.length maxPoints := by
  unfold trimSeries sliceLast maxPoints
  split_ifs with hl
  · simp only [List.length_drop]
    omega
  · omega

/-- Trimming the push of one element onto a full series evicts exactly the
oldest entry. -/
theorem trimSeries_append_at_capacity {α : Type} (l : List α) (x : α)
    (hl : l.length = maxPoints) :
    trimSeries (l ++ [x]) = l.drop 1 ++ [x] := by
  have hl50 : l.length = 50 := hl
  unfold trimSeries sliceLast maxPoints
  have hlen : (l ++ [x]).length = 51 := by
    simp [List.length_append, hl50]
  rw [if_pos (by omega), hlen]
  have h1 : (51 : ℕ) - 50 = 1 := by norm_num
  rw [h1, List.drop_append_of_le_length (by omega)]

/-- One append cycle preserves well-formedness and increments the length up
to the cap. -/
theorem updateHistoricalData_step (h : HistoricalData)
    (hw : h.wellFormed) (w : WeatherReading) (s : SoilReading) (t : String) :
    (updateHistoricalData h w s t).wellFormed ∧
    (updateHistoricalData h w s t).timestamps.length
      = min (h.timestamps.length + 1) maxPoints := by
  obtain ⟨h1, h2, h3, h4⟩ := hw
  unfold updateHistoricalData HistoricalData.wellFormed
  simp only [trimSeries_length, List.length_append, List.length_singleton]
  unfold maxPoints at *
  exact ⟨⟨by omega, by omega, by omega, by omega⟩, by trivial⟩

/-- Length of the buffer after a run of append cycles from an arbitrary
well-formed start. -/
theorem runUpdates_length (steps : List (WeatherReading × SoilReading × String)) :
    ∀ h : HistoricalData, h.wellFormed →
      (runUpdates h steps).timestamps.length
        = min (h.timestamps.length + steps.length) maxPoints := by
  induction steps with
  | nil =>
    intro h hw
    obtain ⟨-, -, -, h4⟩ := hw
    simp only [runUpdates, List.foldl_nil, List.length_nil]
    omega
  | cons a as ih =>
    intro h hw
    have hstep := updateHistoricalData_step h hw a.1 a.2.1 a.2.2
    have hrec := ih (updateHistoricalData h a.1 a.2.1 a.2.2) hstep.1
    simp only [runUpdates, List.foldl_cons] at hrec ⊢
    rw [hrec, hstep.2]
    simp only [List.length_cons]
    omega

/-- Weather reading used by the stress test of the spec (temperature 38);
fields not read by the scorer or predictor are zeroed. -/
def stressWeather : WeatherReading :=
  { temperature := 38, humidity := 0, pressure := 0, windSpeed := 0,
    windDirection := 0, description := "", icon := "", visibility := 0,
    uvIndex := 0, timestamp := "" }

/-- Soil reading used by the stress test of the spec (moisture 15, pH 8.5,
nitrogen 20). -/
def stressSoil : SoilReading :=
  { moisture := 15, temperature := 0, ph := 8.5, nitrogen := 20,
    phosphorus := 0, potassium := 0, conductivity := 0, timestamp := "" }

/-- Weather reading used by the optimal-conditions test (temperature 20). -/
def optimalWeather : WeatherReading :=
  { temperature := 20, humidity := 0, pressure := 0, windSpeed := 0,
    windDirection := 0, description := "", icon := "", visibility := 0,
    uvIndex := 0, timestamp := "" }

/-- Soil reading used by the optimal-conditions test (moisture 45, pH 6.8,
nitrogen 70). -/
def optimalSoil : SoilReading :=
  { moisture := 45, temperature := 0, ph := 6.8, nitrogen := 70,
    phosphorus := 0, potassium := 0, conductivity := 0, timestamp := "" }

/-! ### Claim theorems -/

/-- Claim C1: for every weather reading, soil reading and days-since-planting
value, the crop-health score is an integer in [0,100] and equals the additive
point sum (base 70 plus the temperature, moisture, pH and nitrogen
adjustments) clamped to [0,100] and rounded to the nearest integer. -/
theorem cropHealth_score_in_range (w : WeatherReading) (s : SoilReading) (d : ℤ) :
    0 ≤ (getCropHealth w s d).score ∧ (getCropHealth w s d).score ≤ 100 ∧
    (getCropHealth w s d).score = jsRound (max 0 (min 100 (healthSum w s))) := by
  refine ⟨le_max_left 0 _, max_le (by norm_num) (min_le_left 100 _), ?_⟩
  show max 0 (min 100 (jsRound (healthSum w s)))
      = jsRound (max 0 (min 100 (healthSum w s)))
  unfold healthSum temperatureStep moistureStep phStep nitrogenStep
  split_ifs <;> norm_num [jsRound]

/-- Claim C2: hasAccess returns true exactly when the requested feature key
is in the current plan's static table; in particular the free plan lacks
crop-health, the pro plan has crop-health but not predictions, and the
premium plan has predictions. -/
theorem hasAccess_matches_table (p : Plan) (f : String) :
    (hasAccess p f = true ↔ f ∈ planFeatures p) ∧
    hasAccess .free "crop-health" = false ∧
    hasAccess .pro "crop-health" = true ∧
    hasAccess .pro "predictions" = false ∧
    hasAccess .premium "predictions" = true :=
  ⟨hasAccess_iff_mem p f, by decide, by decide, by decide, by decide⟩

/-- Claim C3: on temperature 38, moisture 15, pH 8.5, nitrogen 20 and 10
days since planting, the scorer returns score 0 (70 - 20 - 25 - 10 - 15
clamped at 0) and exactly the four recommendations temperature (HIGH),
irrigation (HIGH, with water amount (35 - 15) * 15 = 300 L/m²),
soil (MEDIUM), fertilizer (HIGH), in that order. -/
theorem cropHealth_stress_example :
    (getCropHealth stressWeather stressSoil 10).score = 0 ∧
    (getCropHealth stressWeather stressSoil 10).recommendations =
      [⟨"temperature", "HIGH", none⟩,
       ⟨"irrigation", "HIGH", some 300⟩,
       ⟨"soil", "MEDIUM", none⟩,
       ⟨"fertilizer", "HIGH", none⟩] := by
  constructor <;>
    norm_num [getCropHealth, healthSum, temperatureStep, moistureStep, phStep,
      nitrogenStep, stressWeather, stressSoil, jsRound]

/-- Claim C4 counterexample: on the optimal input with 45 days since
planting the code's growth stage is "Reproductive", not "Vegetative" as the
claim states, because 45 fails the strict bound days < 45 of the
Vegetative branch. -/
theorem cropHealth_optimal_example_counterexample :
    (getCropHealth optimalWeather optimalSoil 45).growthStage = "Reproductive" ∧
    (getCropHealth optimalWeather optimalSoil 45).growthStage ≠ "Vegetative" := by
  have hstage : (getCropHealth optimalWeather optimalSoil 45).growthStage
      = "Reproductive" := by
    norm_num [getCropHealth, getGrowthStage]
  exact ⟨hstage, by rw [hstage]; decide⟩

/-- Claim C4 as amended: on temperature 20, moisture 45, pH 6.8,
nitrogen 70 and 45 days since planting the scorer returns score 100 and
growth stage "Reproductive"; the stage thresholds are days < 15
Germination, < 45 Vegetative, < 75 Reproductive, < 120 Maturation,
otherwise Ready for Harvest (so day 45 is the first Reproductive day). -/
theorem cropHealth_optimal_example (d : ℤ) :
    (getCropHealth optimalWeather optimalSoil 45).score = 100 ∧
    (getCropHealth optimalWeather optimalSoil 45).growthStage = "Reproductive" ∧
    (getGrowthStage d).stage =
      (if d < 15 then "Germination"
       else if d < 45 then "Vegetative"
       else if d < 75 then "Reproductive"
       else if d < 120 then "Maturation"
       else "Ready for Harvest") := by
  refine ⟨?_, ?_, ?_⟩
  · norm_num [getCropHealth, healthSum, temperatureStep, moistureStep, phStep,
      nitrogenStep, optimalWeather, optimalSoil, jsRound]
  · norm_num [getCropHealth, getGrowthStage]
  · unfold getGrowthStage
    split_ifs <;> rfl

/-- Claim C5: the yield predictor on score 100, temperature 20,
moisture 45, pH 6.8, nitrogen 70, base yield 4500 and field size 2.5 uses
healthMultiplier 1.0, weatherMultiplier 1.1 and soilMultiplier 1.25 and
returns perHectare round(4500 * 1.0 * 1.1 * 1.25) = 6188,
totalField 15469 and confidence round((1.0 * 0.7 + 0.3) * 100) = 100. -/
theorem predictYield_optimal_example :
    healthMultiplier 100 = 1 ∧
    weatherMultiplier optimalWeather = 1.1 ∧
    soilMultiplier optimalSoil = 1.25 ∧
    (predictYield 100 optimalWeather optimalSoil 4500 2.5).perHectare = 6188 ∧
    (predictYield 100 optimalWeather optimalSoil 4500 2.5).totalField = 15469 ∧
    (predictYield 100 optimalWeather optimalSoil 4500 2.5).confidence = 100 := by
  refine ⟨?_, ?_, ?_, ?_, ?_, ?_⟩ <;>
    norm_num [predictYield, rawPredictedYield, healthMultiplier,
      weatherMultiplier, soilMultiplier, optimalWeather, optimalSoil, jsRound]

/-- Claim C6: a feature key that is absent from the feature table of every
plan is denied by hasAccess for every plan (access fails closed). -/
theorem hasAccess_fails_closed (f : String)
    (hfree : f ∉ planFeatures .free) (hpro : f ∉ planFeatures .pro)
    (hprem : f ∉ planFeatures .premium) (p : Plan) :
    hasAccess p f = false := by
  cases hb : hasAccess p f with
  | false => rfl
  | true =>
    have hmem := (hasAccess_iff_mem p f).mp hb
    cases p with
    | free => exact absurd hmem hfree
    | pro => exact absurd hmem hpro
    | premium => exact absurd hmem hprem

/-- Claim C6 witness: the key export-pdf is in no plan's table, and access
to it is denied on the pro plan. -/
theorem hasAccess_fails_closed_witness :
    "export-pdf" ∉ planFeatures .free ∧ "export-pdf" ∉ planFeatures .pro ∧
    "export-pdf" ∉ planFeatures .premium ∧
    hasAccess .pro "export-pdf" = false :=
  ⟨by decide, by decide, by decide,
   hasAccess_fails_closed "export-pdf" (by decide) (by decide) (by decide) .pro⟩

/-- Claim C7 counterexample: at the optimal-conditions input the code's
totalField is 15469 (rounding the unrounded per-hectare yield 6187.5 times
the field size 2.5), while rounding the already-rounded perHectare value
6188 times 2.5 would give 15470. -/
theorem yield_totalField_counterexample :
    (predictYield 100 optimalWeather optimalSoil 4500 2.5).totalField = 15469 ∧
    jsRound (((predictYield 100 optimalWeather optimalSoil 4500 2.5).perHectare : ℚ)
        * 2.5) = 15470 ∧
    (15469 : ℤ) ≠ 15470 := by
  refine ⟨?_, ?_, by decide⟩ <;>
    norm_num [predictYield, rawPredictedYield, healthMultiplier,
      weatherMultiplier, soilMultiplier, optimalWeather, optimalSoil, jsRound]

/-- Claim C7 as amended: perHectare is the product
baseYield * healthMultiplier * weatherMultiplier * soilMultiplier rounded
to the nearest integer, and totalField is the UNROUNDED product multiplied
by the field size and then rounded (the code multiplies the field size
into predictedYield before any rounding, not into the rounded perHectare
value). -/
theorem yield_totalField_formula (score : ℤ) (w : WeatherReading)
    (s : SoilReading) (baseYield fieldSize : ℚ) :
    (predictYield score w s baseYield fieldSize).perHectare
      = jsRound (rawPredictedYield score w s baseYield) ∧
    (predictYield score w s baseYield fieldSize).totalField
      = jsRound (rawPredictedYield score w s baseYield * fieldSize) :=
  ⟨rfl, rfl⟩

/-- Claim C8: the historical buffer is a bounded FIFO. One append cycle
preserves the invariant that the four series have equal length at most
maxPoints = 50 and takes the length to min (n + 1) 50; a cycle that starts
at capacity keeps the length at 50 and evicts exactly the oldest entry of
every series; and a run of k append cycles from the empty buffer leaves
min k 50 entries, so 51 appends leave 50. -/
theorem historicalData_bounded_fifo (h : HistoricalData)
    (hw : h.wellFormed) (w : WeatherReading) (s : SoilReading) (t : String)
    (steps : List (WeatherReading × SoilReading × String)) :
    (updateHistoricalData h w s t).wellFormed ∧
    (updateHistoricalData h w s t).timestamps.length
      = min (h.timestamps.length + 1) maxPoints ∧
    (h.timestamps.length = maxPoints →
      (updateHistoricalData h w s t).timestamps = h.timestamps.drop 1 ++ [t] ∧
      (updateHistoricalData h w s t).temperature
        = h.temperature.drop 1 ++ [w.temperature] ∧
      (updateHistoricalData h w s t).humidity
        = h.humidity.drop 1 ++ [w.humidity] ∧
      (updateHistoricalData h w s t).soilMoisture
        = h.soilMoisture.drop 1 ++ [s.moisture]) ∧
    (runUpdates emptyHistoricalData steps).timestamps.length
      = min steps.length maxPoints := by
  obtain ⟨hstep, hlen⟩ := updateHistoricalData_step h hw w s t
  refine ⟨hstep, hlen, ?_, ?_⟩
  · intro hcap
    obtain ⟨h1, h2, h3, h4⟩ := hw
    refine ⟨?_, ?_, ?_, ?_⟩ <;>
      exact trimSeries_append_at_capacity _ _ (by omega)
  · have hrun := runUpdates_length steps emptyHistoricalData
      ⟨rfl, rfl, rfl, by norm_num [emptyHistoricalData, maxPoints]⟩
    simpa [emptyHistoricalData] using hrun

/-- Claim C8 witness: the empty buffer is well formed, and one append
cycle on it yields a well-formed buffer of length min 1 50. -/
theorem historicalData_bounded_fifo_witness :
    (emptyHistoricalData.wellFormed) ∧
    (updateHistoricalData emptyHistoricalData stressWeather stressSoil
      "2024-01-01T00:00:00.000Z").wellFormed :=
  ⟨⟨rfl, rfl, rfl, by norm_num [emptyHistoricalData, maxPoints]⟩,
   (historicalData_bounded_fifo emptyHistoricalData
      ⟨rfl, rfl, rfl, by norm_num [emptyHistoricalData, maxPoints]⟩
      stressWeather stressSoil "2024-01-01T00:00:00.000Z" []).1⟩

/-- Claim C9: the crop-health scorer and the yield predictor are
deterministic functions of their explicit inputs alone; equal inputs
produce equal (hence byte-identical when serialized) results, with no
hidden state in the embedding. -/
theorem scorer_predictor_deterministic (w1 w2 : WeatherReading)
    (s1 s2 : SoilReading) (d1 d2 score1 score2 : ℤ) (b1 b2 f1 f2 : ℚ)
    (hw : w1 = w2) (hs : s1 = s2) (hd : d1 = d2) (hscore : score1 = score2)
    (hb : b1 = b2) (hf : f1 = f2) :
    getCropHealth w1 s1 d1 = getCropHealth w2 s2 d2 ∧
    predictYield score1 w1 s1 b1 f1 = predictYield score2 w2 s2 b2 f2 := by
  subst hw hs hd hscore hb hf
  exact ⟨rfl, rfl⟩

/-- Claim C9 witness at a concrete input. -/
theorem scorer_predictor_deterministic_witness :
    getCropHealth stressWeather stressSoil 10
      = getCropHealth stressWeather stressSoil 10 :=
  (scorer_predictor_deterministic stressWeather stressWeather stressSoil
    stressSoil 10 10 100 100 4500 4500 (5/2) (5/2)
    rfl rfl rfl rfl rfl rfl).1

/-- Claim C10: for every health score in [0,100] the predictor's
confidence equals round((score/100 * 0.7 + 0.3) * 100) and lies in
[30,100]; in particular it never falls below 30, even at score 0. -/
theorem yield_confidence_bounds (score : ℤ) (h0 : 0 ≤ score)
    (h100 : score ≤ 100) (w : WeatherReading) (s : SoilReading)
    (baseYield fieldSize : ℚ) :
    (predictYield score w s baseYield fieldSize).confidence
      = jsRound (((score : ℚ) / 100 * 0.7 + 0.3) * 100) ∧
    30 ≤ (predictYield score w s baseYield fieldSize).confidence ∧
    (predictYield score w s baseYield fieldSize).confidence ≤ 100 := by
  have hx0 : (0 : ℚ) ≤ (score : ℚ) := by exact_mod_cast h0
  have hx100 : (score : ℚ) ≤ 100 := by exact_mod_cast h100
  refine ⟨rfl, ?_, ?_⟩
  · show 30 ≤ jsRound ((healthMultiplier score * 0.7 + 0.3) * 100)
    unfold jsRound healthMultiplier
    rw [Int.le_floor]
    push_cast
    linarith
  · show jsRound ((healthMultiplier score * 0.7 + 0.3) * 100) ≤ 100
    unfold jsRound healthMultiplier
    have hlt : ((score : ℚ) / 100 * 0.7 + 0.3) * 100 + 1/2 < ((101 : ℤ) : ℚ) := by
      push_cast
      linarith
    have := Int.floor_lt.mpr hlt
    omega

/-- Claim C10 witness at score 0: the confidence floor of 30 is attained. -/
theorem yield_confidence_bounds_witness :
    (0 : ℤ) ≤ 0 ∧ (0 : ℤ) ≤ 100 ∧
    30 ≤ (predictYield 0 stressWeather stressSoil 4500 2.5).confidence :=
  ⟨by decide, by decide,
   (yield_confidence_bounds 0 (by decide) (by decide) stressWeather stressSoil
     4500 2.5).2.1⟩
